import Mathlib

/-!
Shallow embedding of the classmatev2 backend
(`backend/app/api/userapi.py` and `backend/app/api/chatbotapi.py`).

Conventions of the embedding:
* MongoDB collections are Lean lists of records; `insert_one` appends,
  `delete_many` filters, `find_one`/`find` scan in list order (insertion
  order).  The "database not connected" startup-failure branches are not
  modelled: the state always carries live collections.
* Time is a natural number of seconds; `timedelta(days=1)` is 86400.
* The JWT layer (python-jose) is modelled as a record carrying its payload
  together with a signature value; `jwt.encode` signs with a deterministic
  mixing function of the secret and the payload, and `jwt.decode` checks
  the signature and then the `exp` claim exactly as jose does (expired iff
  `exp < now` with zero leeway).
* bcrypt (`passlib`) is modelled as a deterministic tagging hash with its
  matching verifier.
* `bson.ObjectId` is modelled as a natural number; its string form
  (`str(ObjectId)`) is a digit string produced by a fuel-based decimal
  encoder, and `ObjectId(s)` parses digit strings back, failing (raising
  `InvalidId`) on any non-digit string, while `ObjectId(None)` generates a
  fresh id.
-/

namespace Classmate

/-! ### JWT model (`jose.jwt`, `create_jwt_token`) -/

/-- Decoded JWT payload: the `{"id": ..., "exp": ...}` dictionary built by
`create_jwt_token`.  The `id` claim is optional because `payload.get("id")`
in `get_current_user` may find no such key. -/
structure Payload where
  id : Option String
  exp : Nat
deriving DecidableEq

/-- Serialisation of a payload used by the model signature function. -/
def payloadEnc (p : Payload) : String :=
  (match p.id with | none => "-" | some s => "+" ++ s) ++ "|" ++ toString p.exp

/-- Model of the HMAC-SHA256 signature over the encoded payload: any
deterministic function of the secret and the payload serves the model. -/
def sigOf (secret : String) (p : Payload) : Nat :=
  (secret ++ payloadEnc p).length * 37 + p.exp * 2 + 1

/-- A serialised token: payload plus signature, as produced by
`jwt.encode(payload, SECRET_KEY, algorithm="HS256")`. -/
structure Token where
  payload : Payload
  sig : Nat
deriving DecidableEq

/-- Model of `jwt.encode`: attach the signature for `secret`. -/
def jwtEncode (secret : String) (p : Payload) : Token :=
  { payload := p, sig := sigOf secret p }

/-- Failure modes of `jwt.decode`; both are subclasses of `jose.JWTError`. -/
inductive JWTError where
  | invalidSignature
  | expired
deriving DecidableEq

/-- Model of `jwt.decode(token, SECRET_KEY, algorithms=[ALGORITHM])`:
verify the signature, then reject an expired `exp` claim (python-jose
raises `ExpiredSignatureError` iff `exp < now`, with zero leeway). -/
def jwtDecode (secret : String) (tk : Token) (now : Nat) : Except JWTError Payload :=
  if tk.sig = sigOf secret tk.payload then
    if tk.payload.exp < now then .error .expired else .ok tk.payload
  else .error .invalidSignature

/-- `create_jwt_token` (userapi.py lines 83-85): payload
`{"id": user_id, "exp": datetime.utcnow() + timedelta(days=1)}` signed with
the process secret. -/
def create_jwt_token (secret : String) (user_id : String) (now : Nat) : Token :=
  jwtEncode secret { id := some user_id, exp := now + 86400 }

/-! ### Password hashing model (`passlib` bcrypt context) -/

/-- Model of `pwd_context.hash`: a deterministic tagging hash. -/
def hashPw (p : String) : String := "bcrypt$" ++ p

/-- Model of `pwd_context.verify(plain, hashed)`. -/
def verifyPw (p h : String) : Bool := h = hashPw p

/-! ### ObjectId model (`bson.ObjectId`) -/

/-- Little-endian decimal digits of `n`, with enough fuel to terminate;
structural recursion on the fuel keeps the definition kernel-reducible. -/
def digitsRevFuel : Nat → Nat → List Nat
  | 0, _ => []
  | _ + 1, 0 => []
  | f + 1, n + 1 => ((n + 1) % 10) :: digitsRevFuel f ((n + 1) / 10)

/-- Reconstruct a number from little-endian decimal digits. -/
def ofDigitsRev : List Nat → Nat
  | [] => 0
  | d :: ds => d + 10 * ofDigitsRev ds

/-- Model of `str(ObjectId)`: the decimal digit string of the id. -/
def oidToString (n : Nat) : String :=
  ⟨((digitsRevFuel n n).map fun d => Char.ofNat (48 + d)).reverse⟩

/-- Model of `ObjectId(s)` on a string argument: digit strings parse back to
the id; any other string raises `bson.errors.InvalidId`. -/
def parseOid (s : String) : Option Nat :=
  if s.data.all Char.isDigit then
    some (ofDigitsRev ((s.data.map fun c => c.toNat - 48).reverse))
  else none

/-- Stand-in for the id freshly generated by `ObjectId(None)`. -/
def freshOid : Nat := 0

/-- Model of `ObjectId(user_id)` in `get_current_user`, where `user_id` is
`payload.get("id")`: a missing claim gives `None`, and `ObjectId(None)`
generates a fresh id rather than raising; a string claim is parsed, raising
`InvalidId` (the `.error` case) when it is not well formed. -/
def objectIdOfOpt : Option String → Except Unit Nat
  | none => .ok freshOid
  | some s =>
    match parseOid s with
    | some n => .ok n
    | none => .error ()

/-! ### Data model -/

/-- A document of the `users` collection (see `register`). -/
structure UserRec where
  _id : Nat
  name : String
  email : String
  password : String
  dob : String
deriving DecidableEq

/-- The `user_id` tag stored on goal/note/task documents:
`str(current_user["_id"])`. -/
def uidOf (u : UserRec) : String := oidToString u._id

/-- `GoalItem` request model (chatbotapi.py lines 48-50). -/
structure GoalItem where
  goal : String
  checked : Bool
deriving DecidableEq

/-- `NoteItem` request model (chatbotapi.py lines 52-54). -/
structure NoteItem where
  content : String
  timestamp : String
deriving DecidableEq

/-- `TaskItem` request model (chatbotapi.py lines 56-58). -/
structure TaskItem where
  task : String
  checked : Bool
deriving DecidableEq

/-- A document of the `goals` collection. -/
structure GoalRec where
  user_id : String
  goal : String
  checked : Bool
deriving DecidableEq

/-- A document of the `notes` collection. -/
structure NoteRec where
  user_id : String
  content : String
  timestamp : String
deriving DecidableEq

/-- A document of the `tasks` collection. -/
structure TaskRec where
  user_id : String
  task : String
  checked : Bool
deriving DecidableEq

/-- The database state: the `users`, `goals`, `notes` and `tasks`
collections of the `classmate` database, plus the id counter standing in
for MongoDB's generation of `_id` values on `insert_one`. -/
structure St where
  users : List UserRec
  nextId : Nat
  goals : List GoalRec
  notes : List NoteRec
  tasks : List TaskRec
deriving DecidableEq

/-! ### Auth gate (`get_current_user`, userapi.py lines 87-98) -/

/-- Outcome of resolving a request's bearer token.  `missingToken` is the
401 produced by `OAuth2PasswordBearer` when no credentials are supplied;
`invalidToken` is the 401 "Invalid token" raised from the `except JWTError`
clause; `userNotFound` is the 401 "User not found" `HTTPException`, which
is not a `JWTError` and therefore propagates out of the `try` as intended;
`uncaughtInvalidId` is the `bson.errors.InvalidId` raised by
`ObjectId(user_id)`, which is not a `JWTError` either and escapes the
handler's only `except` clause uncaught. -/
inductive GateResult where
  | ok (u : UserRec)
  | missingToken
  | invalidToken
  | userNotFound
  | uncaughtInvalidId
deriving DecidableEq

/-- `get_current_user`: decode the bearer token, read the `id` claim,
convert it with `ObjectId`, and look the user up in `users_collection`. -/
def get_current_user (secret : String) (token : Option Token) (st : St) (now : Nat) :
    GateResult :=
  match token with
  | none => .missingToken
  | some tk =>
    match jwtDecode secret tk now with
    | .error _ => .invalidToken
    | .ok payload =>
      match objectIdOfOpt payload.id with
      | .error _ => .uncaughtInvalidId
      | .ok oid =>
        match st.users.find? (fun u => u._id == oid) with
        | none => .userNotFound
        | some u => .ok u

/-! ### Registration and login (`userapi.py`) -/

/-- `RegisterModel` request body, before pydantic validation. -/
structure RegisterModel where
  name : String
  email : String
  password : String
  dob : String
deriving DecidableEq

/-- `LoginModel` request body (no validators). -/
structure LoginModel where
  email : String
  password : String
deriving DecidableEq

/-- `UserResponse` response model. -/
structure UserResponse where
  name : String
  email : String
  dob : String
deriving DecidableEq

/-- ASCII lowercasing of one character, modelling Python `str.lower()`. -/
def lowerChar (c : Char) : Char :=
  if 'A' ≤ c ∧ c ≤ 'Z' then Char.ofNat (c.toNat + 32) else c

/-- Model of Python `str.lower()` over a whole string. -/
def lowerStr (s : String) : String := ⟨s.data.map lowerChar⟩

/-- The pydantic validators of `RegisterModel` (userapi.py lines 61-71):
the email must contain "@" and is lowercased; the password must have at
least 6 characters.  A failure is rejected before the handler runs. -/
def validateRegister (r : RegisterModel) : Except Unit RegisterModel :=
  if r.email.data.contains '@' = false then .error ()
  else if r.password.length < 6 then .error ()
  else .ok { r with email := lowerStr r.email }

/-- Failure modes of `register`. -/
inductive RegErr where
  | validationError
  | duplicateEmail
deriving DecidableEq

/-- `register` (userapi.py lines 101-119), composed with the pydantic
validation that precedes the handler: reject on validation failure, then
on `find_one({"email": user.email})` hitting an existing document;
otherwise hash the password and insert the new user.  The returned state
is the database after the request. -/
def register (r : RegisterModel) (st : St) : Except RegErr UserResponse × St :=
  match validateRegister r with
  | .error _ => (.error .validationError, st)
  | .ok m =>
    match st.users.find? (fun u => u.email == m.email) with
    | some _ => (.error .duplicateEmail, st)
    | none =>
      let u : UserRec :=
        { _id := st.nextId, name := m.name, email := m.email,
          password := hashPw m.password, dob := m.dob }
      (.ok { name := m.name, email := m.email, dob := m.dob },
       { st with users := st.users ++ [u], nextId := st.nextId + 1 })

/-- Failure mode of `login`: the single generic 401 "Invalid credentials". -/
inductive LoginErr where
  | invalidCredentials
deriving DecidableEq

/-- Successful `login` response body. -/
structure LoginResp where
  message : String
  token : Token
  name : String
  email : String
deriving DecidableEq

/-- `login` (userapi.py lines 121-139): look the user up by the exact email
string of the request; fail with the one generic error if the lookup or the
hash verification fails; otherwise issue a token for `str(db_user["_id"])`.
`now` is the issuing time used for the `exp` claim. -/
def login (secret : String) (l : LoginModel) (st : St) (now : Nat) :
    Except LoginErr LoginResp :=
  match st.users.find? (fun u => u.email == l.email) with
  | none => .error .invalidCredentials
  | some db_user =>
    if verifyPw l.password db_user.password then
      .ok { message := "Login successful",
            token := create_jwt_token secret (oidToString db_user._id) now,
            name := db_user.name, email := db_user.email }
    else .error .invalidCredentials

/-! ### Protected endpoints (`chatbotapi.py`, `get_me`)

Each handler body takes the resolved `current_user` and the state and
returns its response together with the updated state.  `runProtected`
mirrors the FastAPI `Depends(get_current_user)` wiring: a gate failure
short-circuits the request before the body runs.  The third component of
the result records whether the body (the data layer behind the gate) was
reached at all. -/

/-- Run a handler body behind the auth gate.  On a gate failure the body
never runs: the state is returned untouched and the reached-flag is false. -/
def runProtected {α : Type} (secret : String) (token : Option Token) (st : St) (now : Nat)
    (body : UserRec → St → α × St) : Except GateResult α × St × Bool :=
  match get_current_user secret token st now with
  | .ok u =>
    let r := body u st
    (.ok r.1, r.2, true)
  | g => (.error g, st, false)

/-- Body of `save_goals` (chatbotapi.py lines 89-103):
`delete_many({"user_id": user_id})` then `insert_one` per item in order. -/
def saveGoalsBody (goals : List GoalItem) (u : UserRec) (st : St) : String × St :=
  let user_id := uidOf u
  let kept := st.goals.filter fun g => !(g.user_id == user_id)
  let inserted := goals.map fun g =>
    { user_id := user_id, goal := g.goal, checked := g.checked : GoalRec }
  ("Goals saved successfully", { st with goals := kept ++ inserted })

/-- Body of `get_goals` (chatbotapi.py lines 105-114): find the user's
documents and project them to `{goal, checked}` in stored order. -/
def getGoalsBody (u : UserRec) (st : St) : List GoalItem × St :=
  ((st.goals.filter fun g => g.user_id == uidOf u).map
    (fun g => { goal := g.goal, checked := g.checked }), st)

/-- Body of `save_notes` (chatbotapi.py lines 131-143). -/
def saveNotesBody (notes : List NoteItem) (u : UserRec) (st : St) : String × St :=
  let user_id := uidOf u
  let kept := st.notes.filter fun n => !(n.user_id == user_id)
  let inserted := notes.map fun n =>
    { user_id := user_id, content := n.content, timestamp := n.timestamp : NoteRec }
  ("Notes saved successfully", { st with notes := kept ++ inserted })

/-- Body of `get_notes` (chatbotapi.py lines 145-154). -/
def getNotesBody (u : UserRec) (st : St) : List NoteItem × St :=
  ((st.notes.filter fun n => n.user_id == uidOf u).map
    (fun n => { content := n.content, timestamp := n.timestamp }), st)

/-- Body of `save_tasks` (chatbotapi.py lines 156-168). -/
def saveTasksBody (tasks : List TaskItem) (u : UserRec) (st : St) : String × St :=
  let user_id := uidOf u
  let kept := st.tasks.filter fun t => !(t.user_id == user_id)
  let inserted := tasks.map fun t =>
    { user_id := user_id, task := t.task, checked := t.checked : TaskRec }
  ("Tasks saved successfully", { st with tasks := kept ++ inserted })

/-- Body of `get_tasks` (chatbotapi.py lines 170-179). -/
def getTasksBody (u : UserRec) (st : St) : List TaskItem × St :=
  ((st.tasks.filter fun t => t.user_id == uidOf u).map
    (fun t => { task := t.task, checked := t.checked }), st)

/-- Result of `get_performance`.  `percent` is exact rational arithmetic
standing in for Python float division. -/
structure Perf where
  total : Nat
  completed : Nat
  percent : ℚ
deriving DecidableEq

/-- Body of `get_performance` (chatbotapi.py lines 116-129):
`total = len(user_goals)`, `completed = sum(1 for g if g["checked"])`,
`percent = (completed / total) * 100 if total > 0 else 0`. -/
def getPerformanceBody (u : UserRec) (st : St) : Perf × St :=
  let user_goals := st.goals.filter fun g => g.user_id == uidOf u
  let total := user_goals.length
  let completed := user_goals.countP fun g => g.checked
  let percent : ℚ := if total > 0 then ((completed : ℚ) / (total : ℚ)) * 100 else 0
  ({ total := total, completed := completed, percent := percent }, st)

/-- Body of `get_me` (userapi.py lines 141-147). -/
def getMeBody (u : UserRec) (st : St) : UserResponse × St :=
  ({ name := u.name, email := u.email, dob := u.dob }, st)

/-- The `POST /api/goals` endpoint. -/
def save_goals (secret : String) (token : Option Token) (goals : List GoalItem)
    (st : St) (now : Nat) : Except GateResult String × St × Bool :=
  runProtected secret token st now (saveGoalsBody goals)

/-- The `GET /api/goals` endpoint. -/
def get_goals (secret : String) (token : Option Token) (st : St) (now : Nat) :
    Except GateResult (List GoalItem) × St × Bool :=
  runProtected secret token st now getGoalsBody

/-- The `POST /api/notes` endpoint. -/
def save_notes (secret : String) (token : Option Token) (notes : List NoteItem)
    (st : St) (now : Nat) : Except GateResult String × St × Bool :=
  runProtected secret token st now (saveNotesBody notes)

/-- The `GET /api/notes` endpoint. -/
def get_notes (secret : String) (token : Option Token) (st : St) (now : Nat) :
    Except GateResult (List NoteItem) × St × Bool :=
  runProtected secret token st now getNotesBody

/-- The `POST /api/tasks` endpoint. -/
def save_tasks (secret : String) (token : Option Token) (tasks : List TaskItem)
    (st : St) (now : Nat) : Except GateResult String × St × Bool :=
  runProtected secret token st now (saveTasksBody tasks)

/-- The `GET /api/tasks` endpoint. -/
def get_tasks (secret : String) (token : Option Token) (st : St) (now : Nat) :
    Except GateResult (List TaskItem) × St × Bool :=
  runProtected secret token st now getTasksBody

/-- The `GET /api/performance` endpoint. -/
def get_performance (secret : String) (token : Option Token) (st : St) (now : Nat) :
    Except GateResult Perf × St × Bool :=
  runProtected secret token st now getPerformanceBody

/-- The `GET /api/me` endpoint. -/
def get_me (secret : String) (token : Option Token) (st : St) (now : Nat) :
    Except GateResult UserResponse × St × Bool :=
  runProtected secret token st now getMeBody

/-! ### Chat relay (`chat`, chatbotapi.py lines 67-87) -/

/-- Needle is an initial segment of the haystack. -/
def leadsList : List Char → List Char → Bool
  | [], _ => true
  | _ :: _, [] => false
  | a :: as, b :: bs => a = b && leadsList as bs

/-- Needle occurs contiguously somewhere in the haystack. -/
def hasSub (needle hay : List Char) : Bool :=
  match hay with
  | [] => needle.isEmpty
  | _ :: t => leadsList needle hay || hasSub needle t

/-- Model of the Python substring test `needle in hay`. -/
def strContains (hay needle : String) : Bool := hasSub needle.data hay.data

/-- The outcome of one `generate_reply` call against one client: the reply
text, or the exception's string form `str(e)`. -/
abbrev CallOutcome := Except String String

/-- The `chat` handler, parameterised by the rendering function standing in
for `markdown2.markdown` and by the outcomes of the primary and secondary
upstream calls.  Mirrors the nested try/except control flow: a primary
failure matching the 503 substrings falls back to the secondary; a
secondary failure returns the fixed busy message; any other primary failure
returns the error text; a success (from either client) flows through the
`as_markdown` rendering step before being returned.  Every outcome is an
ordinary return value: the function is total. -/
def chat (render : String → String) (primary secondary : CallOutcome)
    (as_markdown : Bool) : String :=
  match primary with
  | .ok reply_text => if as_markdown then render reply_text else reply_text
  | .error e1 =>
    if strContains e1 "503" || strContains e1 "Service temporarily unavailable" then
      match secondary with
      | .ok reply_text => if as_markdown then render reply_text else reply_text
      | .error _ => "Service is temporarily busy. Please try again later."
    else
      "Error: " ++ e1

/-! ### Concrete fixtures used by closed theorems -/

/-- A freshly connected database with no documents. -/
def emptySt : St := { users := [], nextId := 0, goals := [], notes := [], tasks := [] }

/-- A stored user with id 7. -/
def perfUser : UserRec := { _id := 7, name := "n", email := "e@x", password := "p", dob := "d" }

/-- A state whose goals collection is empty. -/
def perfStEmpty : St :=
  { users := [perfUser], nextId := 8, goals := [], notes := [], tasks := [] }

/-- A state in which `perfUser` owns three goals, two of them checked. -/
def perfStThree : St :=
  { users := [perfUser], nextId := 8,
    goals := [{ user_id := "7", goal := "g1", checked := true },
              { user_id := "7", goal := "g2", checked := false },
              { user_id := "7", goal := "g3", checked := true }],
    notes := [], tasks := [] }

/-- A stored user with id 5. -/
def u5 : UserRec := { _id := 5, name := "n5", email := "u5@x", password := "h", dob := "d" }

/-- A state holding `u5` plus one goal, note and task owned by another user. -/
def stW : St :=
  { users := [u5], nextId := 6,
    goals := [{ user_id := "9", goal := "other", checked := true }],
    notes := [{ user_id := "9", content := "c", timestamp := "t" }],
    tasks := [{ user_id := "9", task := "k", checked := false }] }

/-- A token for `u5` signed with the secret "s", expiring at time 100. -/
def tok5 : Token := jwtEncode "s" { id := some (oidToString 5), exp := 100 }

/-- A state already holding a user whose email is `a@b`. -/
def dupSt : St :=
  { users := [{ _id := 1, name := "M", email := "a@b", password := "h", dob := "d" }],
    nextId := 2, goals := [], notes := [], tasks := [] }

/-- A state holding a user whose stored hash is of the password "pw". -/
def credSt : St :=
  { users := [{ _id := 3, name := "n", email := "a@b", password := hashPw "pw", dob := "d" }],
    nextId := 4, goals := [], notes := [], tasks := [] }

/-- A valid registration request whose email has an uppercase letter. -/
def rUpper : RegisterModel :=
  { name := "N", email := "A@b.c", password := "secret1", dob := "2000-01-01" }

/-- The same registration request with the email already lowercase. -/
def rLower : RegisterModel :=
  { name := "N", email := "a@b.c", password := "secret1", dob := "2000-01-01" }

/-- The user document that a successful registration of `r` against state
`st` inserts. -/
def registeredUser (r : RegisterModel) (st : St) : UserRec :=
  { _id := st.nextId, name := r.name, email := lowerStr r.email,
    password := hashPw r.password, dob := r.dob }

/-! ### Helper lemmas -/

theorem digitsRevFuel_lt_ten (fuel n : Nat) : ∀ d ∈ digitsRevFuel fuel n, d < 10 := by
  induction fuel generalizing n with
  | zero => intro d hd; simp [digitsRevFuel] at hd
  | succ f ih =>
    intro d hd
    cases n with
    | zero => simp [digitsRevFuel] at hd
    | succ m =>
      simp only [digitsRevFuel, List.mem_cons] at hd
      rcases hd with h | h
      · subst h; exact Nat.mod_lt _ (by omega)
      · exact ih _ d h

theorem ofDigitsRev_digitsRevFuel (fuel n : Nat) (h : n ≤ fuel) :
    ofDigitsRev (digitsRevFuel fuel n) = n := by
  induction fuel generalizing n with
  | zero =>
    have hn : n = 0 := Nat.le_zero.mp h
    subst hn; rfl
  | succ f ih =>
    cases n with
    | zero => rfl
    | succ m =>
      have hle : (m + 1) / 10 ≤ f := by
        have := Nat.div_lt_self (Nat.succ_pos m) (by norm_num : 1 < 10)
        omega
      simp only [digitsRevFuel, ofDigitsRev, ih _ hle]
      omega

theorem digitChar_spec (d : Nat) (h : d < 10) :
    (Char.ofNat (48 + d)).isDigit = true ∧ (Char.ofNat (48 + d)).toNat - 48 = d := by
  interval_cases d <;> exact ⟨by decide, by decide⟩

theorem mapDecEnc (l : List Nat) (h : ∀ d ∈ l, d < 10) :
    ((l.map fun d => Char.ofNat (48 + d)).map fun c => c.toNat - 48) = l := by
  induction l with
  | nil => rfl
  | cons a t ih =>
    simp only [List.map_cons, List.cons.injEq]
    exact ⟨(digitChar_spec a (h a (by simp))).2,
      ih fun d hd => h d (by simp [hd])⟩

theorem allDigitEnc (l : List Nat) (h : ∀ d ∈ l, d < 10) :
    (l.map fun d => Char.ofNat (48 + d)).all Char.isDigit = true := by
  induction l with
  | nil => rfl
  | cons a t ih =>
    simp only [List.map_cons, List.all_cons, Bool.and_eq_true]
    exact ⟨(digitChar_spec a (h a (by simp))).1,
      ih fun d hd => h d (by simp [hd])⟩

theorem parseOid_oidToString (n : Nat) : parseOid (oidToString n) = some n := by
  have hlt := digitsRevFuel_lt_ten n n
  show (if (((digitsRevFuel n n).map fun d => Char.ofNat (48 + d)).reverse).all
          Char.isDigit = true then
        some (ofDigitsRev (((((digitsRevFuel n n).map fun d =>
          Char.ofNat (48 + d)).reverse).map fun c => c.toNat - 48).reverse))
      else none) = some n
  rw [List.all_reverse, allDigitEnc _ hlt, if_pos rfl, List.map_reverse,
    List.reverse_reverse, mapDecEnc _ hlt, ofDigitsRev_digitsRevFuel n n le_rfl]

theorem filter_neg_then_pos {α : Type} (p : α → Bool) (l : List α) :
    (l.filter fun a => !(p a)).filter p = [] := by
  induction l with
  | nil => rfl
  | cons a t ih =>
    by_cases h : p a = true
    · simp [List.filter_cons, h, ih]
    · simp only [Bool.not_eq_true] at h
      simp [List.filter_cons, h, ih]

theorem filter_neg_idem {α : Type} (p : α → Bool) (l : List α) :
    ((l.filter fun a => !(p a)).filter fun a => !(p a)) = l.filter fun a => !(p a) := by
  induction l with
  | nil => rfl
  | cons a t ih =>
    by_cases h : p a = true
    · simp [List.filter_cons, h, ih]
    · simp only [Bool.not_eq_true] at h
      simp [List.filter_cons, h, ih]

theorem find?_append_none {α : Type} (p : α → Bool) (l1 l2 : List α)
    (h : l1.find? p = none) : (l1 ++ l2).find? p = l2.find? p := by
  induction l1 with
  | nil => rfl
  | cons a t ih =>
    by_cases hp : p a = true
    · rw [List.find?_cons_of_pos _ hp] at h
      exact absurd h (by simp)
    · have hp' : ¬ p a := by simpa using hp
      rw [List.find?_cons_of_neg _ hp'] at h
      rw [List.cons_append, List.find?_cons_of_neg _ hp']
      exact ih h

theorem gate_authFail (secret : String) (token : Option Token) (st : St) (now : Nat)
    (h : token = none ∨ ∃ tk, token = some tk ∧ tk.sig ≠ sigOf secret tk.payload) :
    get_current_user secret token st now = .missingToken ∨
      get_current_user secret token st now = .invalidToken := by
  rcases h with h | ⟨tk, htk, hsig⟩
  · subst h; exact Or.inl rfl
  · subst htk
    right
    simp [get_current_user, jwtDecode, hsig]

theorem runProtected_authFail {α : Type} (secret : String) (token : Option Token)
    (st : St) (now : Nat) (body : UserRec → St → α × St)
    (h : token = none ∨ ∃ tk, token = some tk ∧ tk.sig ≠ sigOf secret tk.payload) :
    ∃ g, (g = GateResult.missingToken ∨ g = GateResult.invalidToken) ∧
      runProtected secret token st now body = (.error g, st, false) := by
  rcases gate_authFail secret token st now h with hg | hg
  · exact ⟨.missingToken, Or.inl rfl, by simp [runProtected, hg]⟩
  · exact ⟨.invalidToken, Or.inr rfl, by simp [runProtected, hg]⟩

theorem gate_of_decode_error (secret : String) (tk : Token) (st : St) (now : Nat)
    (e : JWTError) (h : jwtDecode secret tk now = .error e) :
    get_current_user secret (some tk) st now = .invalidToken := by
  simp only [get_current_user]
  rw [h]

theorem gate_of_decode_ok (secret : String) (tk : Token) (st : St) (now : Nat)
    (p : Payload) (oid : Nat) (w : UserRec)
    (hd : jwtDecode secret tk now = .ok p)
    (ho : objectIdOfOpt p.id = .ok oid)
    (hf : (st.users.find? fun u => u._id == oid) = some w) :
    get_current_user secret (some tk) st now = .ok w := by
  simp only [get_current_user]
  rw [hd]
  dsimp only
  rw [ho]
  dsimp only
  rw [hf]

theorem goalRoundTrip (uid : String) (items : List GoalItem) :
    ((items.map fun g =>
        ({ user_id := uid, goal := g.goal, checked := g.checked } : GoalRec)).filter
      fun g => g.user_id == uid).map
        (fun g => ({ goal := g.goal, checked := g.checked } : GoalItem)) = items := by
  induction items with
  | nil => rfl
  | cons a t ih => simp [List.map_cons, List.filter_cons, ih]

theorem noteRoundTrip (uid : String) (items : List NoteItem) :
    ((items.map fun n =>
        ({ user_id := uid, content := n.content, timestamp := n.timestamp } : NoteRec)).filter
      fun n => n.user_id == uid).map
        (fun n => ({ content := n.content, timestamp := n.timestamp } : NoteItem)) = items := by
  induction items with
  | nil => rfl
  | cons a t ih => simp [List.map_cons, List.filter_cons, ih]

theorem taskRoundTrip (uid : String) (items : List TaskItem) :
    ((items.map fun t =>
        ({ user_id := uid, task := t.task, checked := t.checked } : TaskRec)).filter
      fun t => t.user_id == uid).map
        (fun t => ({ task := t.task, checked := t.checked } : TaskItem)) = items := by
  induction items with
  | nil => rfl
  | cons a t ih => simp [List.map_cons, List.filter_cons, ih]

/-! ### Claims -/

/-- C2: for every user and every item sequence (including the empty one),
the replace-all save of goals, notes or tasks followed immediately by the
corresponding list read returns exactly the saved sequence, same contents
in the same order. -/
theorem replace_all_then_list (u : UserRec) (st : St)
    (goals : List GoalItem) (notes : List NoteItem) (tasks : List TaskItem) :
    (getGoalsBody u (saveGoalsBody goals u st).2).1 = goals ∧
    (getNotesBody u (saveNotesBody notes u st).2).1 = notes ∧
    (getTasksBody u (saveTasksBody tasks u st).2).1 = tasks := by
  refine ⟨?_, ?_, ?_⟩
  · show ((((st.goals.filter fun g => !(g.user_id == uidOf u)) ++
        goals.map fun g =>
          ({ user_id := uidOf u, goal := g.goal, checked := g.checked } : GoalRec)).filter
      fun g => g.user_id == uidOf u).map
        fun g => ({ goal := g.goal, checked := g.checked } : GoalItem)) = goals
    rw [List.filter_append, filter_neg_then_pos, List.nil_append, goalRoundTrip]
  · show ((((st.notes.filter fun n => !(n.user_id == uidOf u)) ++
        notes.map fun n =>
          ({ user_id := uidOf u, content := n.content,
             timestamp := n.timestamp } : NoteRec)).filter
      fun n => n.user_id == uidOf u).map
        fun n => ({ content := n.content, timestamp := n.timestamp } : NoteItem)) = notes
    rw [List.filter_append, filter_neg_then_pos, List.nil_append, noteRoundTrip]
  · show ((((st.tasks.filter fun t => !(t.user_id == uidOf u)) ++
        tasks.map fun t =>
          ({ user_id := uidOf u, task := t.task, checked := t.checked } : TaskRec)).filter
      fun t => t.user_id == uidOf u).map
        fun t => ({ task := t.task, checked := t.checked } : TaskItem)) = tasks
    rw [List.filter_append, filter_neg_then_pos, List.nil_append, taskRoundTrip]

/-- C5: performance returns the number of the user's goal documents as
`total`, the number of those whose boolean flag is true as `completed`, and
`percent = 100 * completed / total` for a nonempty goal set and `0` for an
empty one; the division is guarded so it is only taken with `total > 0`. -/
theorem performance_spec (u : UserRec) (st : St) :
    (getPerformanceBody u st).1.total =
      (st.goals.filter fun g => g.user_id == uidOf u).length ∧
    (getPerformanceBody u st).1.completed =
      ((st.goals.filter fun g => g.user_id == uidOf u).filter fun g => g.checked).length ∧
    (0 < (getPerformanceBody u st).1.total →
      (getPerformanceBody u st).1.percent =
        100 * ((getPerformanceBody u st).1.completed : ℚ) /
          ((getPerformanceBody u st).1.total : ℚ)) ∧
    ((getPerformanceBody u st).1.total = 0 → (getPerformanceBody u st).1.percent = 0) := by
  refine ⟨rfl, ?_, ?_, ?_⟩
  · show ((st.goals.filter fun g => g.user_id == uidOf u).countP fun g => g.checked) = _
    rw [List.countP_eq_length_filter]
  · intro hpos
    have hpos' : 0 < (st.goals.filter fun g => g.user_id == uidOf u).length := hpos
    show (if 0 < (st.goals.filter fun g => g.user_id == uidOf u).length then
        (((st.goals.filter fun g => g.user_id == uidOf u).countP fun g => g.checked : ℚ) /
          ((st.goals.filter fun g => g.user_id == uidOf u).length : ℚ)) * 100
      else 0) =
      100 * ((st.goals.filter fun g => g.user_id == uidOf u).countP fun g => g.checked : ℚ) /
        ((st.goals.filter fun g => g.user_id == uidOf u).length : ℚ)
    rw [if_pos hpos']
    ring
  · intro hzero
    have hz : (st.goals.filter fun g => g.user_id == uidOf u).length = 0 := hzero
    show (if 0 < (st.goals.filter fun g => g.user_id == uidOf u).length then
        (((st.goals.filter fun g => g.user_id == uidOf u).countP fun g => g.checked : ℚ) /
          ((st.goals.filter fun g => g.user_id == uidOf u).length : ℚ)) * 100
      else 0) = 0
    rw [if_neg (by omega)]

/-- C6 counterexample: on the three-goal set with two checked items the
code returns `percent` exactly two-thirds of one hundred, which is not the
rounded value 66.67 claimed by the spec (no rounding happens anywhere in
`get_performance`). -/
theorem performance_concrete_counterexample :
    (getPerformanceBody perfUser perfStThree).1.total = 3 ∧
    (getPerformanceBody perfUser perfStThree).1.completed = 2 ∧
    (getPerformanceBody perfUser perfStThree).1.percent ≠ 6667 / 100 := by
  refine ⟨rfl, rfl, ?_⟩
  show ((2 : ℚ) / (3 : ℚ)) * 100 ≠ 6667 / 100
  norm_num

/-- C6 (amended): performance on an empty goal set returns
`{total: 0, completed: 0, percent: 0}`, and on the goal set
`[{checked:true},{checked:false},{checked:true}]` returns
`{total: 3, completed: 2, percent: 200/3}` — exactly two-thirds expressed
as a percent, of which 66.67 is only the two-decimal display rounding. -/
theorem performance_concrete_values :
    (getPerformanceBody perfUser perfStEmpty).1 =
      { total := 0, completed := 0, percent := 0 } ∧
    (getPerformanceBody perfUser perfStThree).1 =
      { total := 3, completed := 2, percent := 200 / 3 } := by
  refine ⟨rfl, ?_⟩
  show ({ total := 3, completed := 2, percent := ((2 : ℚ) / (3 : ℚ)) * 100 } : Perf) = _
  norm_num

/-- C10: a token correctly signed with the process secret and unexpired,
but whose `id` claim is not a well-formed ObjectId string, passes
`jwt.decode` and then makes `ObjectId(user_id)` raise `InvalidId`; that
exception is not a `JWTError`, so it escapes the handler's only except
clause instead of producing the 401 "Invalid token" rejection. -/
theorem gate_invalid_oid_escapes :
    jwtDecode "s" (jwtEncode "s" { id := some "zz", exp := 1000 }) 0 =
      .ok { id := some "zz", exp := 1000 } ∧
    get_current_user "s" (some (jwtEncode "s" { id := some "zz", exp := 1000 }))
      emptySt 0 = .uncaughtInvalidId ∧
    GateResult.uncaughtInvalidId ≠ GateResult.invalidToken := by
  refine ⟨rfl, by decide, by decide⟩

/-- C4: the chat relay terminates in exactly the advertised non-throwing
outcomes, for any rendering function standing in for `markdown2.markdown`
and any outcomes of the two upstream calls: primary success returns the
primary's text (HTML-rendered when markdown is requested); a primary
failure whose text contains "503" or "Service temporarily unavailable"
followed by secondary success returns the secondary's text (through the
same rendering step); both failing returns the fixed busy message; any
other primary failure returns "Error: " followed by that message.  The
relay is a total function: it never raises past its own boundary. -/
theorem chat_outcomes (render : String → String) (primary secondary : CallOutcome)
    (md : Bool) :
    (∀ t, primary = .ok t →
      chat render primary secondary md = if md then render t else t) ∧
    (∀ e1 t2, primary = .error e1 →
      (strContains e1 "503" || strContains e1 "Service temporarily unavailable") = true →
      secondary = .ok t2 →
      chat render primary secondary md = if md then render t2 else t2) ∧
    (∀ e1 e2, primary = .error e1 →
      (strContains e1 "503" || strContains e1 "Service temporarily unavailable") = true →
      secondary = .error e2 →
      chat render primary secondary md =
        "Service is temporarily busy. Please try again later.") ∧
    (∀ e1, primary = .error e1 →
      (strContains e1 "503" || strContains e1 "Service temporarily unavailable") = false →
      chat render primary secondary md = "Error: " ++ e1) := by
  refine ⟨?_, ?_, ?_, ?_⟩
  · intro t h1; subst h1; rfl
  · intro e1 t2 h1 h5 h2; subst h1; subst h2; simp [chat, h5]
  · intro e1 e2 h1 h5 h2; subst h1; subst h2; simp [chat, h5]
  · intro e1 h1 h5; subst h1; simp [chat, h5]

/-- Witness for C4 at concrete upstream outcomes. -/
theorem chat_outcomes_witness :
    chat id (.ok "hello") (.ok "x") false = "hello" ∧
    chat id (.error "503 Service Unavailable") (.ok "backup") false = "backup" ∧
    chat id (.error "503") (.error "503") false =
      "Service is temporarily busy. Please try again later." ∧
    chat id (.error "boom") (.ok "x") false = "Error: boom" := by
  refine ⟨?_, ?_, ?_, ?_⟩
  · exact (chat_outcomes id (.ok "hello") (.ok "x") false).1 "hello" rfl
  · exact (chat_outcomes id (.error "503 Service Unavailable") (.ok "backup") false).2.1
      "503 Service Unavailable" "backup" rfl (by decide) rfl
  · exact (chat_outcomes id (.error "503") (.error "503") false).2.2.1
      "503" "503" rfl (by decide) rfl
  · exact (chat_outcomes id (.error "boom") (.ok "x") false).2.2.2
      "boom" rfl (by decide)

/-- C8: a login attempt with a stored email but a password that fails the
hash check, and a login attempt with an email belonging to no stored user,
produce the identical `Invalid credentials` outcome, with nothing in the
response distinguishing the two cases. -/
theorem login_enumeration_safe (secret : String) (st : St) (now1 now2 : Nat)
    (e1 pw1 e2 pw2 : String) (u : UserRec)
    (hfind : (st.users.find? fun v => v.email == e1) = some u)
    (hwrong : verifyPw pw1 u.password = false)
    (hnone : (st.users.find? fun v => v.email == e2) = none) :
    login secret { email := e1, password := pw1 } st now1 =
      .error .invalidCredentials ∧
    login secret { email := e2, password := pw2 } st now2 =
      .error .invalidCredentials ∧
    login secret { email := e1, password := pw1 } st now1 =
      login secret { email := e2, password := pw2 } st now2 := by
  refine ⟨?_, ?_, ?_⟩ <;> simp [login, hfind, hwrong, hnone]

/-- Witness for C8 on a one-user store. -/
theorem login_enumeration_safe_witness :
    login "s" { email := "a@b", password := "wrong" } credSt 0 =
      .error .invalidCredentials ∧
    login "s" { email := "c@d", password := "x" } credSt 0 =
      .error .invalidCredentials ∧
    login "s" { email := "a@b", password := "wrong" } credSt 0 =
      login "s" { email := "c@d", password := "x" } credSt 0 :=
  login_enumeration_safe "s" credSt 0 0 "a@b" "wrong" "c@d" "x"
    { _id := 3, name := "n", email := "a@b", password := hashPw "pw", dob := "d" }
    (by decide) (by decide) (by decide)

/-- C7: registration fails with the validation error when the email lacks
"@" or the password has fewer than 6 characters, and fails with the
duplicate-email error when a stored user's email is case-insensitively
equal to the submitted one (stored emails being lowercase, as every write
path lowercases them); in each failure case the state, and in particular
the users collection, is unchanged. -/
theorem register_failures (r : RegisterModel) (st : St) :
    ((r.email.data.contains '@' = false ∨ r.password.length < 6) →
      register r st = (.error .validationError, st)) ∧
    (∀ u, u ∈ st.users → (∀ v ∈ st.users, v.email = lowerStr v.email) →
      lowerStr u.email = lowerStr r.email →
      r.email.data.contains '@' = true → ¬ r.password.length < 6 →
      register r st = (.error .duplicateEmail, st)) := by
  constructor
  · intro h
    rcases h with h | h
    · have h' : ¬ ('@' ∈ r.email.data) := by simpa using h
      simp [register, validateRegister, h']
    · by_cases hc : '@' ∈ r.email.data
      · simp [register, validateRegister, hc, h]
      · simp [register, validateRegister, hc]
  · intro u hu hinv heq hAt hPw
    have hAt' : '@' ∈ r.email.data := by simpa using hAt
    have hueq : u.email = lowerStr r.email := by rw [hinv u hu, heq]
    have hsome : (st.users.find? fun v => v.email == lowerStr r.email).isSome := by
      rw [List.find?_isSome]
      exact ⟨u, hu, by rw [beq_iff_eq, hueq]⟩
    obtain ⟨w, hw⟩ := Option.isSome_iff_exists.mp hsome
    simp [register, validateRegister, hAt', hPw, hw]

/-- Witness for C7: a malformed email is rejected before persistence, and a
case-insensitive duplicate of a stored email is rejected as duplicate. -/
theorem register_failures_witness :
    register { name := "N", email := "bad", password := "longpass", dob := "d" } emptySt =
      (.error .validationError, emptySt) ∧
    register { name := "N", email := "A@b", password := "longpass", dob := "d" } dupSt =
      (.error .duplicateEmail, dupSt) := by
  constructor
  · exact (register_failures
      { name := "N", email := "bad", password := "longpass", dob := "d" } emptySt).1
      (Or.inl (by decide))
  · exact (register_failures
      { name := "N", email := "A@b", password := "longpass", dob := "d" } dupSt).2
      { _id := 1, name := "M", email := "a@b", password := "h", dob := "d" }
      (by decide) (by decide) (by decide) (by decide) (by decide)

/-- C3: a request to any protected endpoint carrying no bearer token or a
token whose signature does not verify fails with an authentication error
(the missing-credentials 401 or the invalid-token 401), leaves the state
untouched, and never reaches the handler body behind the gate, so no read
or write against the per-user data collections is performed. -/
theorem protected_endpoints_reject_bad_tokens (secret : String) (token : Option Token)
    (st : St) (now : Nat) (goals : List GoalItem) (notes : List NoteItem)
    (tasks : List TaskItem)
    (h : token = none ∨ ∃ tk, token = some tk ∧ tk.sig ≠ sigOf secret tk.payload) :
    (∃ g, (g = GateResult.missingToken ∨ g = GateResult.invalidToken) ∧
      save_goals secret token goals st now = (.error g, st, false)) ∧
    (∃ g, (g = GateResult.missingToken ∨ g = GateResult.invalidToken) ∧
      get_goals secret token st now = (.error g, st, false)) ∧
    (∃ g, (g = GateResult.missingToken ∨ g = GateResult.invalidToken) ∧
      save_notes secret token notes st now = (.error g, st, false)) ∧
    (∃ g, (g = GateResult.missingToken ∨ g = GateResult.invalidToken) ∧
      get_notes secret token st now = (.error g, st, false)) ∧
    (∃ g, (g = GateResult.missingToken ∨ g = GateResult.invalidToken) ∧
      save_tasks secret token tasks st now = (.error g, st, false)) ∧
    (∃ g, (g = GateResult.missingToken ∨ g = GateResult.invalidToken) ∧
      get_tasks secret token st now = (.error g, st, false)) ∧
    (∃ g, (g = GateResult.missingToken ∨ g = GateResult.invalidToken) ∧
      get_performance secret token st now = (.error g, st, false)) ∧
    (∃ g, (g = GateResult.missingToken ∨ g = GateResult.invalidToken) ∧
      get_me secret token st now = (.error g, st, false)) :=
  ⟨runProtected_authFail secret token st now (saveGoalsBody goals) h,
   runProtected_authFail secret token st now getGoalsBody h,
   runProtected_authFail secret token st now (saveNotesBody notes) h,
   runProtected_authFail secret token st now getNotesBody h,
   runProtected_authFail secret token st now (saveTasksBody tasks) h,
   runProtected_authFail secret token st now getTasksBody h,
   runProtected_authFail secret token st now getPerformanceBody h,
   runProtected_authFail secret token st now getMeBody h⟩

/-- Witness for C3 with a concrete tampered token (zero signature). -/
theorem protected_endpoints_reject_bad_tokens_witness :
    (∃ g, (g = GateResult.missingToken ∨ g = GateResult.invalidToken) ∧
      save_goals "s" (some { payload := { id := some "5", exp := 10 }, sig := 0 })
        [] emptySt 0 = (.error g, emptySt, false)) ∧
    (∃ g, (g = GateResult.missingToken ∨ g = GateResult.invalidToken) ∧
      get_goals "s" (some { payload := { id := some "5", exp := 10 }, sig := 0 })
        emptySt 0 = (.error g, emptySt, false)) ∧
    (∃ g, (g = GateResult.missingToken ∨ g = GateResult.invalidToken) ∧
      save_notes "s" (some { payload := { id := some "5", exp := 10 }, sig := 0 })
        [] emptySt 0 = (.error g, emptySt, false)) ∧
    (∃ g, (g = GateResult.missingToken ∨ g = GateResult.invalidToken) ∧
      get_notes "s" (some { payload := { id := some "5", exp := 10 }, sig := 0 })
        emptySt 0 = (.error g, emptySt, false)) ∧
    (∃ g, (g = GateResult.missingToken ∨ g = GateResult.invalidToken) ∧
      save_tasks "s" (some { payload := { id := some "5", exp := 10 }, sig := 0 })
        [] emptySt 0 = (.error g, emptySt, false)) ∧
    (∃ g, (g = GateResult.missingToken ∨ g = GateResult.invalidToken) ∧
      get_tasks "s" (some { payload := { id := some "5", exp := 10 }, sig := 0 })
        emptySt 0 = (.error g, emptySt, false)) ∧
    (∃ g, (g = GateResult.missingToken ∨ g = GateResult.invalidToken) ∧
      get_performance "s" (some { payload := { id := some "5", exp := 10 }, sig := 0 })
        emptySt 0 = (.error g, emptySt, false)) ∧
    (∃ g, (g = GateResult.missingToken ∨ g = GateResult.invalidToken) ∧
      get_me "s" (some { payload := { id := some "5", exp := 10 }, sig := 0 })
        emptySt 0 = (.error g, emptySt, false)) :=
  protected_endpoints_reject_bad_tokens "s"
    (some { payload := { id := some "5", exp := 10 }, sig := 0 }) emptySt 0 [] [] []
    (Or.inr ⟨{ payload := { id := some "5", exp := 10 }, sig := 0 }, rfl, by decide⟩)

theorem goalTaggedNegNil (uid : String) (items : List GoalItem) :
    ((items.map fun g =>
        ({ user_id := uid, goal := g.goal, checked := g.checked } : GoalRec)).filter
      fun g => !(g.user_id == uid)) = [] := by
  induction items with
  | nil => rfl
  | cons a t ih => simp [List.map_cons, List.filter_cons, ih]

theorem noteTaggedNegNil (uid : String) (items : List NoteItem) :
    ((items.map fun n =>
        ({ user_id := uid, content := n.content, timestamp := n.timestamp } : NoteRec)).filter
      fun n => !(n.user_id == uid)) = [] := by
  induction items with
  | nil => rfl
  | cons a t ih => simp [List.map_cons, List.filter_cons, ih]

theorem taskTaggedNegNil (uid : String) (items : List TaskItem) :
    ((items.map fun t =>
        ({ user_id := uid, task := t.task, checked := t.checked } : TaskRec)).filter
      fun t => !(t.user_id == uid)) = [] := by
  induction items with
  | nil => rfl
  | cons a t ih => simp [List.map_cons, List.filter_cons, ih]

/-- C9: an authenticated save of goals, notes or tasks by the resolved user
leaves every record owned by any other user unchanged: the addressed
collection keeps exactly its other-owners records (in order), and the other
collections, including the users collection, are untouched. -/
theorem saves_touch_only_owner (secret : String) (token : Option Token) (st : St)
    (now : Nat) (u : UserRec) (goals : List GoalItem) (notes : List NoteItem)
    (tasks : List TaskItem)
    (hAuth : get_current_user secret token st now = .ok u) :
    ((save_goals secret token goals st now).2.1.goals.filter
        fun g => !(g.user_id == uidOf u)) =
      (st.goals.filter fun g => !(g.user_id == uidOf u)) ∧
    (save_goals secret token goals st now).2.1.notes = st.notes ∧
    (save_goals secret token goals st now).2.1.tasks = st.tasks ∧
    (save_goals secret token goals st now).2.1.users = st.users ∧
    ((save_notes secret token notes st now).2.1.notes.filter
        fun n => !(n.user_id == uidOf u)) =
      (st.notes.filter fun n => !(n.user_id == uidOf u)) ∧
    (save_notes secret token notes st now).2.1.goals = st.goals ∧
    (save_notes secret token notes st now).2.1.tasks = st.tasks ∧
    (save_notes secret token notes st now).2.1.users = st.users ∧
    ((save_tasks secret token tasks st now).2.1.tasks.filter
        fun t => !(t.user_id == uidOf u)) =
      (st.tasks.filter fun t => !(t.user_id == uidOf u)) ∧
    (save_tasks secret token tasks st now).2.1.goals = st.goals ∧
    (save_tasks secret token tasks st now).2.1.notes = st.notes ∧
    (save_tasks secret token tasks st now).2.1.users = st.users := by
  have hg : save_goals secret token goals st now =
      (.ok (saveGoalsBody goals u st).1, (saveGoalsBody goals u st).2, true) := by
    simp [save_goals, runProtected, hAuth]
  have hn : save_notes secret token notes st now =
      (.ok (saveNotesBody notes u st).1, (saveNotesBody notes u st).2, true) := by
    simp [save_notes, runProtected, hAuth]
  have ht : save_tasks secret token tasks st now =
      (.ok (saveTasksBody tasks u st).1, (saveTasksBody tasks u st).2, true) := by
    simp [save_tasks, runProtected, hAuth]
  rw [hg, hn, ht]
  refine ⟨?_, rfl, rfl, rfl, ?_, rfl, rfl, rfl, ?_, rfl, rfl, rfl⟩
  · show (((st.goals.filter fun g => !(g.user_id == uidOf u)) ++
        goals.map fun g =>
          ({ user_id := uidOf u, goal := g.goal, checked := g.checked } : GoalRec)).filter
      fun g => !(g.user_id == uidOf u)) = _
    rw [List.filter_append, filter_neg_idem, goalTaggedNegNil, List.append_nil]
  · show (((st.notes.filter fun n => !(n.user_id == uidOf u)) ++
        notes.map fun n =>
          ({ user_id := uidOf u, content := n.content,
             timestamp := n.timestamp } : NoteRec)).filter
      fun n => !(n.user_id == uidOf u)) = _
    rw [List.filter_append, filter_neg_idem, noteTaggedNegNil, List.append_nil]
  · show (((st.tasks.filter fun t => !(t.user_id == uidOf u)) ++
        tasks.map fun t =>
          ({ user_id := uidOf u, task := t.task, checked := t.checked } : TaskRec)).filter
      fun t => !(t.user_id == uidOf u)) = _
    rw [List.filter_append, filter_neg_idem, taskTaggedNegNil, List.append_nil]

/-- Witness for C9: a concrete authenticated save into a state holding one
goal, note and task of another user. -/
theorem saves_touch_only_owner_witness :
    ((save_goals "s" (some tok5) [{ goal := "mine", checked := true }] stW 0).2.1.goals.filter
        fun g => !(g.user_id == uidOf u5)) =
      (stW.goals.filter fun g => !(g.user_id == uidOf u5)) ∧
    (save_goals "s" (some tok5) [{ goal := "mine", checked := true }] stW 0).2.1.notes = stW.notes ∧
    (save_goals "s" (some tok5) [{ goal := "mine", checked := true }] stW 0).2.1.tasks = stW.tasks ∧
    (save_goals "s" (some tok5) [{ goal := "mine", checked := true }] stW 0).2.1.users = stW.users ∧
    ((save_notes "s" (some tok5) [] stW 0).2.1.notes.filter
        fun n => !(n.user_id == uidOf u5)) =
      (stW.notes.filter fun n => !(n.user_id == uidOf u5)) ∧
    (save_notes "s" (some tok5) [] stW 0).2.1.goals = stW.goals ∧
    (save_notes "s" (some tok5) [] stW 0).2.1.tasks = stW.tasks ∧
    (save_notes "s" (some tok5) [] stW 0).2.1.users = stW.users ∧
    ((save_tasks "s" (some tok5) [] stW 0).2.1.tasks.filter
        fun t => !(t.user_id == uidOf u5)) =
      (stW.tasks.filter fun t => !(t.user_id == uidOf u5)) ∧
    (save_tasks "s" (some tok5) [] stW 0).2.1.goals = stW.goals ∧
    (save_tasks "s" (some tok5) [] stW 0).2.1.notes = stW.notes ∧
    (save_tasks "s" (some tok5) [] stW 0).2.1.users = stW.users :=
  saves_touch_only_owner "s" (some tok5) stW 0 u5
    [{ goal := "mine", checked := true }] [] [] (by decide)

/-- C1 counterexample: a fully valid registration (email contains "@",
password length at least 6, email not present) whose email carries an
uppercase letter is stored lowercased by the validator, so a subsequent
login with the very same email string finds no user and fails, refuting the
claim as stated. -/
theorem register_then_login_same_string_counterexample :
    (rUpper.email.data.contains '@') = true ∧
    ¬ (rUpper.password.length < 6) ∧
    (emptySt.users.find? fun u => u.email == lowerStr rUpper.email) = none ∧
    (register rUpper emptySt).1 =
      .ok { name := "N", email := "a@b.c", dob := "2000-01-01" } ∧
    login "s" { email := rUpper.email, password := rUpper.password }
      (register rUpper emptySt).2 0 = .error .invalidCredentials :=
  ⟨by decide, by decide, by decide, rfl, rfl⟩

/-- C1 (amended): for every valid registration (email contains "@",
password length at least 6, no stored user under the normalized email), a
subsequent login with the email as stored — the registration's lowercased
email — and the same password succeeds and returns a token that the auth
gate's resolution accepts at every instant up to 24 hours after issuance
and rejects as expired immediately after. -/
theorem register_then_login_verify (secret : String) (r : RegisterModel) (st : St)
    (t0 : Nat)
    (hAt : (r.email.data.contains '@') = true)
    (hPw : ¬ r.password.length < 6)
    (hFresh : (st.users.find? fun u => u.email == lowerStr r.email) = none) :
    ∃ lr : LoginResp,
      (register r st).1 =
        .ok { name := r.name, email := lowerStr r.email, dob := r.dob } ∧
      login secret { email := lowerStr r.email, password := r.password }
        (register r st).2 t0 = .ok lr ∧
      (∀ n, n ≤ t0 + 86400 →
        ∃ u, get_current_user secret (some lr.token) (register r st).2 n = .ok u) ∧
      (∀ n, t0 + 86400 < n →
        get_current_user secret (some lr.token) (register r st).2 n =
          .invalidToken) := by
  have hAt' : '@' ∈ r.email.data := by simpa using hAt
  have hval : validateRegister r = .ok { r with email := lowerStr r.email } := by
    simp [validateRegister, hAt', hPw]
  have hreg : register r st =
      (.ok { name := r.name, email := lowerStr r.email, dob := r.dob },
       { st with users := st.users ++ [registeredUser r st],
                 nextId := st.nextId + 1 }) := by
    simp [register, hval, hFresh, registeredUser]
  have hfind :
      ((register r st).2.users.find? fun u => u.email == lowerStr r.email) =
        some (registeredUser r st) := by
    rw [hreg]
    show ((st.users ++ [registeredUser r st]).find? fun u =>
      u.email == lowerStr r.email) = some (registeredUser r st)
    rw [find?_append_none _ _ _ hFresh]
    exact List.find?_cons_of_pos _ (by simp [registeredUser])
  have hlogin : login secret { email := lowerStr r.email, password := r.password }
      (register r st).2 t0 =
      .ok { message := "Login successful",
            token := create_jwt_token secret
              (oidToString (registeredUser r st)._id) t0,
            name := (registeredUser r st).name,
            email := (registeredUser r st).email } := by
    simp [login, hfind, verifyPw, registeredUser]
  refine ⟨_, by rw [hreg], hlogin, ?_, ?_⟩
  · intro n hn
    have hdec : jwtDecode secret
        (create_jwt_token secret (oidToString (registeredUser r st)._id) t0) n =
        .ok { id := some (oidToString (registeredUser r st)._id),
              exp := t0 + 86400 } := by
      unfold create_jwt_token jwtEncode jwtDecode
      rw [if_pos rfl, if_neg (show ¬ (t0 + 86400 < n) by omega)]
    have hoid : objectIdOfOpt (some (oidToString (registeredUser r st)._id)) =
        .ok (registeredUser r st)._id := by
      simp [objectIdOfOpt, parseOid_oidToString]
    have hmem : registeredUser r st ∈ (register r st).2.users := by
      rw [hreg]
      simp
    have hsome : ((register r st).2.users.find? fun v =>
        v._id == (registeredUser r st)._id).isSome := by
      rw [List.find?_isSome]
      exact ⟨registeredUser r st, hmem, by simp⟩
    obtain ⟨w, hw⟩ := Option.isSome_iff_exists.mp hsome
    exact ⟨w, gate_of_decode_ok secret _ _ n _ (registeredUser r st)._id w hdec hoid hw⟩
  · intro n hn
    have hdec : jwtDecode secret
        (create_jwt_token secret (oidToString (registeredUser r st)._id) t0) n =
        .error .expired := by
      unfold create_jwt_token jwtEncode jwtDecode
      rw [if_pos rfl, if_pos (show t0 + 86400 < n by omega)]
    exact gate_of_decode_error secret _ (register r st).2 n .expired hdec

/-- Witness for the amended C1 on a concrete registration. -/
theorem register_then_login_verify_witness :
    ∃ lr : LoginResp,
      (register rLower emptySt).1 =
        .ok { name := rLower.name, email := lowerStr rLower.email,
              dob := rLower.dob } ∧
      login "s" { email := lowerStr rLower.email, password := rLower.password }
        (register rLower emptySt).2 0 = .ok lr ∧
      (∀ n, n ≤ 0 + 86400 →
        ∃ u, get_current_user "s" (some lr.token)
          (register rLower emptySt).2 n = .ok u) ∧
      (∀ n, 0 + 86400 < n →
        get_current_user "s" (some lr.token)
          (register rLower emptySt).2 n = .invalidToken) :=
  register_then_login_verify "s" rLower emptySt 0
    (by decide) (by decide) (by decide)

end Classmate
